import Mathlib

/-!
Verification of a small data-access layer, shallowly embedded from
src/data_io_manager.py and src/db_connections.py: LocalDataHandler moves
tabular data to and from local files with timestamped names,
PostgresDataHandler infers a relational schema and writes or reads one table,
and PostgreSQLDB owns the connection lifecycle. External collaborators (the
pandas format codecs, the SQL engine) are parameters of the embedding.
-/

namespace Staj

/-- Python exception values, distinguished by class and carrying the message
text the source interpolates with f-strings. -/
inductive Exc where
  | runtimeError (msg : String)
  | ioError (msg : String)
  | valueError (msg : String)
  | attributeError (msg : String)
  | otherError (msg : String)
deriving DecidableEq, Repr

/-- Message text of an exception, as read back when the source embeds the
caught exception into a wrapper message. -/
def Exc.message : Exc → String
  | .runtimeError m => m
  | .ioError m => m
  | .valueError m => m
  | .attributeError m => m
  | .otherError m => m

/-- Outcome of calling a Python function: a normal return or a raised
exception. -/
inductive Call (α : Type) where
  | ret (a : α)
  | exn (e : Exc)

/-- Wall-clock instant at second resolution, standing for the value
datetime.datetime.now() observes inside _generate_file_name. -/
structure Timestamp where
  year : Nat
  month : Nat
  day : Nat
  hour : Nat
  minute : Nat
  second : Nat
deriving DecidableEq, Repr

/-- Field ranges datetime.datetime.now() guarantees (datetime years stay
below 10000). -/
abbrev Timestamp.valid (t : Timestamp) : Prop :=
  1 ≤ t.month ∧ t.month ≤ 12 ∧ 1 ≤ t.day ∧ t.day ≤ 31 ∧ t.year ≤ 9999 ∧
    t.hour ≤ 23 ∧ t.minute ≤ 59 ∧ t.second ≤ 59

/-- Scalar cell values a pandas column may hold, restricted to the scalar
kinds the data model names. -/
inductive Value where
  | text (s : String)
  | intVal (n : Int)
  | floatVal (q : Rat)
  | timestampVal (t : Timestamp)
  | nullVal
deriving DecidableEq, Repr

/-- One named pandas column: its dtype rendered as str(series.dtype), and its
cells. -/
structure Column where
  name : String
  dtype : String
  values : List Value
deriving DecidableEq, Repr

/-- In-memory pandas DataFrame: ordered named columns. -/
structure DataFrame where
  cols : List Column
deriving DecidableEq, Repr

/-- Two-digit zero-padded decimal rendering, as the strftime fields %d %m %H
%M %S produce for their in-range values. -/
def two (n : Nat) : List Char := [Nat.digitChar (n / 10), Nat.digitChar (n % 10)]

/-- Four-digit zero-padded decimal rendering, as strftime %Y produces for
years below 10000. -/
def four (n : Nat) : List Char :=
  [Nat.digitChar (n / 1000), Nat.digitChar (n / 100 % 10),
   Nat.digitChar (n / 10 % 10), Nat.digitChar (n % 10)]

def pad2 (n : Nat) : String := String.mk (two n)

def pad4 (n : Nat) : String := String.mk (four n)

/-- Character stream of strftime with the format %d-%m-%Y_%H-%M-%S used in
_generate_file_name. -/
def strftimeChars (t : Timestamp) : List Char :=
  two t.day ++ '-' :: two t.month ++ '-' :: four t.year ++ '_' ::
    two t.hour ++ '-' :: two t.minute ++ '-' :: two t.second

/-- Embeds datetime.datetime.now().strftime with format %d-%m-%Y_%H-%M-%S. -/
def strftimeDate (t : Timestamp) : String := String.mk (strftimeChars t)

/-- Embeds the two-argument posix os.path.join used by _generate_file_name:
an absolute second part wins, an empty or slash-terminated first part is
concatenated directly, otherwise a separator is inserted. -/
def osPathJoin (a b : String) : String :=
  if b.data.head? = some '/' then b
  else if a = "" then b
  else if a.data.getLast? = some '/' then a ++ b
  else a ++ "/" ++ b

/-- Embeds the Python idiom file_path.split on the dot taking the last piece:
the suffix after the last dot, or the whole string when no dot occurs. -/
def lastDotComponent (s : String) : String :=
  String.mk ((s.data.reverse.takeWhile (fun c => c != '.')).reverse)

/-- Local filesystem state: the directories that exist and a map from paths
to file contents (file bytes are modelled as strings). -/
structure FS where
  dirs : List String
  files : String → Option String

/-- Embeds os.makedirs with exist_ok true: records the output directory as
existing (intermediate directories are created too; only the leaf directory
is tracked here). The file map is untouched. -/
def makedirs (fs : FS) (output_dir : String) : FS :=
  { fs with dirs := if output_dir ∈ fs.dirs then fs.dirs else output_dir :: fs.dirs }

/-- Behavior of the external pandas serializers behind the format registries
(to_json, read_csv and the rest). They are collaborators outside this
repository, so each is a parameter that may return content or raise. -/
structure Codecs where
  toJson : DataFrame → Call String
  readJson : String → Call DataFrame
  toCsv : DataFrame → Call String
  readCsv : String → Call DataFrame
  toParquet : DataFrame → Call String
  readParquet : String → Call DataFrame

namespace LocalDataHandler

/-- Embeds the readers dict of LocalDataHandler.read: extension to reader. -/
def readersDict (cs : Codecs) (ext : String) : Option (String → Call DataFrame) :=
  if ext = "json" then some cs.readJson
  else if ext = "csv" then some cs.readCsv
  else if ext = "parquet" then some cs.readParquet
  else none

/-- Embeds the writers dict of LocalDataHandler.write: extension to writer. -/
def writersDict (cs : Codecs) (ext : String) : Option (DataFrame → Call String) :=
  if ext = "json" then some cs.toJson
  else if ext = "csv" then some cs.toCsv
  else if ext = "parquet" then some cs.toParquet
  else none

/-- Embeds LocalDataHandler._generate_file_name: joins output_dir with
base_name, an underscore, the strftime timestamp and the dot-extension. The
generation instant is an explicit argument in place of datetime.now(). -/
def generate_file_name (now : Timestamp) (base_name : String) (extension : String)
    (output_dir : String) : String :=
  osPathJoin output_dir (base_name ++ "_" ++ strftimeDate now ++ "." ++ extension)

/-- Embeds LocalDataHandler.read: resolve the extension (the explicit
argument when truthy, else the piece after the last dot of the path), look up
a reader, open and parse the file wrapping any failure as an IOError, or
raise ValueError for an unsupported extension. -/
def read (cs : Codecs) (fs : FS) (file_path : String) (extension : Option String) :
    Except Exc DataFrame :=
  let file_extension :=
    match extension with
    | some e => if e = "" then lastDotComponent file_path else e
    | none => lastDotComponent file_path
  match readersDict cs file_extension with
  | some reader_func =>
    match fs.files file_path with
    | none => Except.error (Exc.ioError ("Error reading file at " ++ file_path ++ ": missing file"))
    | some content =>
      match reader_func content with
      | Call.ret df => Except.ok df
      | Call.exn e =>
        Except.error (Exc.ioError ("Error reading file at " ++ file_path ++ ": " ++ e.message))
  | none => Except.error (Exc.valueError ("Unsupported file extension: " ++ file_extension))

/-- Embeds LocalDataHandler.write: create the output directory, compute the
timestamped destination path, then dispatch on the writers registry; a
missing entry raises ValueError, and a failing serializer is wrapped as an
IOError. Returns the filesystem after the call together with the outcome. -/
def write (cs : Codecs) (now : Timestamp) (fs : FS) (df : DataFrame)
    (base_name : String) (output_dir : String) (extension : String) :
    FS × Except Exc Unit :=
  let fs1 := makedirs fs output_dir
  let file_path := generate_file_name now base_name extension output_dir
  match writersDict cs extension with
  | some writer_func =>
    match writer_func df with
    | Call.ret content =>
      ({ fs1 with files := fun p => if p = file_path then some content else fs1.files p },
       Except.ok ())
    | Call.exn e =>
      (fs1, Except.error (Exc.ioError ("Error writing file to " ++ file_path ++ ": " ++ e.message)))
  | none => (fs1, Except.error (Exc.valueError ("Unsupported file extension: " ++ extension)))

end LocalDataHandler

/-- Row and column payload of a successful SQL execution (the contents the
source takes from the ResultProxy via fetchall and keys). -/
structure QueryResult where
  rows : List (List Value)
  keys : List String
deriving DecidableEq, Repr

/-- Behavior of a live engine: what executing a given SQL text inside
connection.execute followed by commit does — returns a result or raises. -/
def EngineBehavior : Type := String → Except Exc QueryResult

namespace PostgreSQLDB

/-- Embeds PostgreSQLDB.execute_query: every failure inside the try block —
including the AttributeError raised by touching self.engine.connect when no
engine exists — is caught, printed, and turned into the implicit None return;
the function never raises and never reports an error to its caller. -/
def execute_query (engine : Option EngineBehavior) (query : String) : Option QueryResult :=
  match engine with
  | none => none
  | some behavior =>
    match behavior query with
    | Except.ok result => some result
    | Except.error _ => none

end PostgreSQLDB

/-- Observable connection effects of a PostgresDataHandler operation. -/
inductive Ev where
  | execQuery (query : String)
  | toSqlAppend (table : String)
  | disconnect
deriving DecidableEq, Repr

def isDisconnect : Ev → Bool
  | Ev.disconnect => true
  | _ => false

/-- Number of disconnect invocations recorded in an effect trace. -/
def countDisconnects (evs : List Ev) : Nat := (evs.filter isDisconnect).length

namespace PostgresDataHandler

/-- Embeds PostgresDataHandler._get_postgres_type: the type_mapping dict
lookup on str(series.dtype) with default TEXT, written as the corresponding
decision chain. -/
def get_postgres_type (series_dtype : String) : String :=
  if series_dtype = "object" then "TEXT"
  else if series_dtype = "int64" then "BIGINT"
  else if series_dtype = "int32" then "INT"
  else if series_dtype = "float64" then "DOUBLE PRECISION"
  else if series_dtype = "float32" then "FLOAT"
  else if series_dtype = "datetime64[ns]" then "TIMESTAMP"
  else "TEXT"

/-- Dict comprehension of write: each column name paired with its mapped
destination type, in column order. -/
def column_types (data : DataFrame) : List (String × String) :=
  data.cols.map (fun c => (c.name, get_postgres_type c.dtype))

/-- Join of write: col space type, comma separated. -/
def columns_info (data : DataFrame) : String :=
  String.intercalate ", " ((column_types data).map (fun p => p.1 ++ " " ++ p.2))

/-- DDL text built by _create_table. -/
def createTableQuery (table_name : String) (columns_info_str : String) : String :=
  "CREATE TABLE IF NOT EXISTS " ++ table_name ++ " (" ++ columns_info_str ++ ")"

/-- Embeds PostgresDataHandler._create_table over the outcome of calling
self.postgres.execute_query: a normal return (whatever value) prints success,
a raised exception is wrapped in a RuntimeError naming the table. The trace
records the issued statement. -/
def create_table (exq : String → Call (Option QueryResult)) (table_name : String)
    (columns_info_str : String) : Except Exc Unit × List Ev :=
  let q := createTableQuery table_name columns_info_str
  match exq q with
  | Call.ret _ => (Except.ok (), [Ev.execQuery q])
  | Call.exn e =>
    (Except.error (Exc.runtimeError ("Failed to create table " ++ table_name ++ ": " ++ e.message)),
     [Ev.execQuery q])

/-- Call shape of self.postgres.execute_query as _create_table invokes it:
the embedded execute_query never raises, so the call always returns. -/
def execQueryCall (engine : Option EngineBehavior) : String → Call (Option QueryResult) :=
  fun q => Call.ret (PostgreSQLDB.execute_query engine q)

/-- Embeds PostgresDataHandler.write: infer column types, create the table,
append all rows via data.to_sql (an external driver call, passed as a
parameter), wrap any exception escaping the try block in a RuntimeError, and
disconnect in the finally block on every exit path. The trace records the
connection effects in order. -/
def write (exq : String → Call (Option QueryResult)) (toSql : DataFrame → String → Call Unit)
    (data : DataFrame) (table_name : String) : Except Exc Unit × List Ev :=
  match create_table exq table_name (columns_info data) with
  | (Except.error e, evs) =>
    (Except.error (Exc.runtimeError
        ("Failed to write DataFrame to PostgreSQL table " ++ table_name ++ ": " ++ e.message)),
     evs ++ [Ev.disconnect])
  | (Except.ok _, evs) =>
    match toSql data table_name with
    | Call.exn e =>
      (Except.error (Exc.runtimeError
          ("Failed to write DataFrame to PostgreSQL table " ++ table_name ++ ": " ++ e.message)),
       evs ++ [Ev.toSqlAppend table_name, Ev.disconnect])
    | Call.ret _ => (Except.ok (), evs ++ [Ev.toSqlAppend table_name, Ev.disconnect])

/-- Column names and rows pandas builds from fetchall and keys inside read. -/
structure ReadFrame where
  columns : List String
  rows : List (List Value)
deriving DecidableEq, Repr

/-- Embeds PostgresDataHandler.read: SELECT star from the table through
execute_query; when that returns None, the fetchall attribute access raises
inside the try block and is wrapped as a RuntimeError, otherwise rows and
keys become the returned DataFrame. No disconnect is in the trace. -/
def read (engine : Option EngineBehavior) (table_name : String) :
    Except Exc ReadFrame × List Ev :=
  let q := "SELECT * FROM " ++ table_name
  match PostgreSQLDB.execute_query engine q with
  | some result => (Except.ok { columns := result.keys, rows := result.rows }, [Ev.execQuery q])
  | none =>
    (Except.error (Exc.runtimeError ("Failed to read data from PostgreSQL table "
        ++ table_name ++ ": NoneType object has no attribute fetchall")),
     [Ev.execQuery q])

end PostgresDataHandler

/-- Roundtrip obligation on the external codec pair registered for the
extension, at the given data: whatever content the writer produces, the
reader parses it back to that data. -/
def codecRoundtrips (cs : Codecs) (ext : String) (df : DataFrame) : Prop :=
  ∀ w r content, LocalDataHandler.writersDict cs ext = some w →
    LocalDataHandler.readersDict cs ext = some r →
    w df = Call.ret content → r content = Call.ret df

/-- Check that every cell of every column is a text, integer or floating
value (the claim exempts timestamp columns). -/
def textIntFloatOnly (df : DataFrame) : Bool :=
  df.cols.all (fun c => c.values.all (fun v =>
    match v with
    | Value.text _ => true
    | Value.intVal _ => true
    | Value.floatVal _ => true
    | _ => false))

/-- Concrete one-column integer DataFrame used by witnesses. -/
def sampleDf : DataFrame :=
  { cols := [{ name := "id", dtype := "int64", values := [Value.intVal 1, Value.intVal 2] }] }

/-- Engine on which every statement fails, as a DDL permission problem does. -/
def permissionDeniedEngine : EngineBehavior :=
  fun _ => Except.error (Exc.otherError "permission denied for schema public")

/-- Append effect that succeeds. -/
def okToSql : DataFrame → String → Call Unit := fun _ _ => Call.ret ()

/-- Empty filesystem used by witnesses. -/
def emptyFS : FS := { dirs := [], files := fun _ => none }

def ts1 : Timestamp := { year := 2024, month := 3, day := 7, hour := 15, minute := 4, second := 5 }

def ts2 : Timestamp := { year := 2024, month := 3, day := 7, hour := 15, minute := 4, second := 6 }

/-- Concrete codec family for witnesses: every format serializes to a fixed
payload and parses back to sampleDf, so each pair inverts on sampleDf. -/
def wCodecs : Codecs :=
  { toJson := fun _ => Call.ret "payload"
    readJson := fun _ => Call.ret sampleDf
    toCsv := fun _ => Call.ret "payload"
    readCsv := fun _ => Call.ret sampleDf
    toParquet := fun _ => Call.ret "payload"
    readParquet := fun _ => Call.ret sampleDf }

theorem data_append (s t : String) : (s ++ t).data = s.data ++ t.data := rfl

theorem data_mk (l : List Char) : (String.mk l).data = l := rfl

theorem data_dot : ("." : String).data = ['.'] := rfl

theorem data_dash : ("-" : String).data = ['-'] := rfl

theorem data_underscore : ("_" : String).data = ['_'] := rfl

theorem data_slash : ("/" : String).data = ['/'] := rfl

theorem string_ext {s t : String} (h : s.data = t.data) : s = t := by
  cases s
  cases t
  exact congrArg String.mk h

/-- C3: the claim requires execute_query in the Disconnected state to fail
explicitly with a NotConnected error; the code instead catches the internal
AttributeError and returns the absent result None for every query, so the
call silently yields no result and raises nothing. -/
theorem execute_query_disconnected_returns_none (query : String) :
    PostgreSQLDB.execute_query none query = none := rfl

/-- C1: PostgresDataHandler.write invokes disconnect exactly once on every
exit path — whether the table creation call or the row append returns or
raises — and that disconnect is the final connection effect before write
returns or propagates its error. -/
theorem pg_write_always_disconnects (exq : String → Call (Option QueryResult))
    (toSql : DataFrame → String → Call Unit) (data : DataFrame) (table_name : String) :
    countDisconnects (PostgresDataHandler.write exq toSql data table_name).2 = 1 ∧
    (PostgresDataHandler.write exq toSql data table_name).2.getLast? = some Ev.disconnect := by
  cases hc : exq (PostgresDataHandler.createTableQuery table_name
      (PostgresDataHandler.columns_info data)) with
  | ret r =>
    cases ht : toSql data table_name with
    | ret u =>
      simp [PostgresDataHandler.write, PostgresDataHandler.create_table, hc, ht,
        countDisconnects, isDisconnect]
    | exn e =>
      simp [PostgresDataHandler.write, PostgresDataHandler.create_table, hc, ht,
        countDisconnects, isDisconnect]
  | exn e =>
    simp [PostgresDataHandler.write, PostgresDataHandler.create_table, hc,
      countDisconnects, isDisconnect]

/-- C2 as the code actually behaves at a failing CREATE TABLE: execute_query
swallows the engine failure and returns None, _create_table therefore
reports success, and write proceeds to the append and returns success — no
SchemaError (indeed no error at all) is raised for the failed DDL, so the two
distinguishable failure kinds the claim requires do not exist in the code. -/
theorem pg_write_swallows_ddl_failure :
    PostgreSQLDB.execute_query (some permissionDeniedEngine)
      (PostgresDataHandler.createTableQuery "t" (PostgresDataHandler.columns_info sampleDf)) = none ∧
    (PostgresDataHandler.write (PostgresDataHandler.execQueryCall (some permissionDeniedEngine))
      okToSql sampleDf "t").1 = Except.ok () :=
  ⟨rfl, rfl⟩

/-- C9: PostgresDataHandler.read never invokes disconnect: its connection
effect trace contains no disconnect event, whether the query succeeds or the
wrapped-failure path is taken — asymmetric with write. -/
theorem pg_read_never_disconnects (engine : Option EngineBehavior) (table_name : String) :
    countDisconnects (PostgresDataHandler.read engine table_name).2 = 0 ∧
    Ev.disconnect ∉ (PostgresDataHandler.read engine table_name).2 := by
  cases h : PostgreSQLDB.execute_query engine ("SELECT * FROM " ++ table_name) <;>
    simp [PostgresDataHandler.read, h, countDisconnects, isDisconnect]

/-- C4: the dtype mapping is total with the documented images — object (the
pandas text dtype) to TEXT, int64 to BIGINT, int32 to INT, float64 to DOUBLE
PRECISION, float32 to FLOAT, datetime64[ns] to TIMESTAMP — and every dtype
outside the table falls back to TEXT, so a type tag is returned for every
column and the mapping never fails. -/
theorem get_postgres_type_total (s : String)
    (h : s ∉ ["object", "int64", "int32", "float64", "float32", "datetime64[ns]"]) :
    PostgresDataHandler.get_postgres_type "object" = "TEXT" ∧
    PostgresDataHandler.get_postgres_type "int64" = "BIGINT" ∧
    PostgresDataHandler.get_postgres_type "int32" = "INT" ∧
    PostgresDataHandler.get_postgres_type "float64" = "DOUBLE PRECISION" ∧
    PostgresDataHandler.get_postgres_type "float32" = "FLOAT" ∧
    PostgresDataHandler.get_postgres_type "datetime64[ns]" = "TIMESTAMP" ∧
    PostgresDataHandler.get_postgres_type s = "TEXT" := by
  simp only [List.mem_cons, List.not_mem_nil, or_false, not_or] at h
  obtain ⟨h1, h2, h3, h4, h5, h6⟩ := h
  refine ⟨rfl, rfl, rfl, rfl, rfl, rfl, ?_⟩
  simp [PostgresDataHandler.get_postgres_type, h1, h2, h3, h4, h5, h6]

theorem get_postgres_type_total_witness :
    ("bool" ∉ ["object", "int64", "int32", "float64", "float32", "datetime64[ns]"]) ∧
    (PostgresDataHandler.get_postgres_type "object" = "TEXT" ∧
     PostgresDataHandler.get_postgres_type "int64" = "BIGINT" ∧
     PostgresDataHandler.get_postgres_type "int32" = "INT" ∧
     PostgresDataHandler.get_postgres_type "float64" = "DOUBLE PRECISION" ∧
     PostgresDataHandler.get_postgres_type "float32" = "FLOAT" ∧
     PostgresDataHandler.get_postgres_type "datetime64[ns]" = "TIMESTAMP" ∧
     PostgresDataHandler.get_postgres_type "bool" = "TEXT") :=
  ⟨by decide, get_postgres_type_total "bool" (by decide)⟩

/-- C6: writing with an extension outside json, csv and parquet always fails
with the unsupported-extension ValueError and leaves the file map untouched:
no file, not even a partial one, is created. -/
theorem write_unsupported_extension (cs : Codecs) (now : Timestamp) (fs : FS)
    (df : DataFrame) (base dir ext : String)
    (h1 : ext ≠ "json") (h2 : ext ≠ "csv") (h3 : ext ≠ "parquet") :
    (LocalDataHandler.write cs now fs df base dir ext).2 =
      Except.error (Exc.valueError ("Unsupported file extension: " ++ ext)) ∧
    (LocalDataHandler.write cs now fs df base dir ext).1.files = fs.files := by
  constructor
  · simp [LocalDataHandler.write, LocalDataHandler.writersDict, h1, h2, h3]
  · simp [LocalDataHandler.write, LocalDataHandler.writersDict, makedirs, h1, h2, h3]

theorem write_unsupported_extension_witness :
    (("txt" : String) ≠ "json" ∧ ("txt" : String) ≠ "csv" ∧ ("txt" : String) ≠ "parquet") ∧
    ((LocalDataHandler.write wCodecs ts1 emptyFS sampleDf "data" "out" "txt").2 =
       Except.error (Exc.valueError ("Unsupported file extension: " ++ "txt")) ∧
     (LocalDataHandler.write wCodecs ts1 emptyFS sampleDf "data" "out" "txt").1.files =
       emptyFS.files) :=
  ⟨⟨by decide, by decide, by decide⟩,
   write_unsupported_extension wCodecs ts1 emptyFS sampleDf "data" "out" "txt"
     (by decide) (by decide) (by decide)⟩

/-- C10: the output directory is created by makedirs before the extension is
validated, so a write with an unsupported extension still leaves the output
directory existing as a side effect even though the call fails with the
unsupported-extension ValueError and writes no file. -/
theorem write_unsupported_creates_dir (cs : Codecs) (now : Timestamp) (fs : FS)
    (df : DataFrame) (base dir ext : String)
    (h1 : ext ≠ "json") (h2 : ext ≠ "csv") (h3 : ext ≠ "parquet") :
    dir ∈ (LocalDataHandler.write cs now fs df base dir ext).1.dirs ∧
    (LocalDataHandler.write cs now fs df base dir ext).2 =
      Except.error (Exc.valueError ("Unsupported file extension: " ++ ext)) := by
  constructor
  · have hdirs : (LocalDataHandler.write cs now fs df base dir ext).1.dirs
        = if dir ∈ fs.dirs then fs.dirs else dir :: fs.dirs := by
      simp [LocalDataHandler.write, LocalDataHandler.writersDict, makedirs, h1, h2, h3]
    rw [hdirs]
    by_cases hmem : dir ∈ fs.dirs
    · rw [if_pos hmem]; exact hmem
    · rw [if_neg hmem]; exact List.mem_cons_self dir fs.dirs
  · simp [LocalDataHandler.write, LocalDataHandler.writersDict, h1, h2, h3]

theorem write_unsupported_creates_dir_witness :
    (("bin" : String) ≠ "json" ∧ ("bin" : String) ≠ "csv" ∧ ("bin" : String) ≠ "parquet") ∧
    ("outdir" ∈ (LocalDataHandler.write wCodecs ts1 emptyFS sampleDf "data" "outdir" "bin").1.dirs ∧
     (LocalDataHandler.write wCodecs ts1 emptyFS sampleDf "data" "outdir" "bin").2 =
       Except.error (Exc.valueError ("Unsupported file extension: " ++ "bin"))) :=
  ⟨⟨by decide, by decide, by decide⟩,
   write_unsupported_creates_dir wCodecs ts1 emptyFS sampleDf "data" "outdir" "bin"
     (by decide) (by decide) (by decide)⟩

theorem digitChar_injOn : ∀ a < 10, ∀ b < 10, Nat.digitChar a = Nat.digitChar b → a = b := by
  decide

theorem two_inj {a b : Nat} (ha : a < 100) (hb : b < 100)
    (h1 : Nat.digitChar (a / 10) = Nat.digitChar (b / 10))
    (h2 : Nat.digitChar (a % 10) = Nat.digitChar (b % 10)) : a = b := by
  have e1 := digitChar_injOn (a / 10) (by omega) (b / 10) (by omega) h1
  have e2 := digitChar_injOn (a % 10) (by omega) (b % 10) (by omega) h2
  omega

theorem four_inj {a b : Nat} (ha : a < 10000) (hb : b < 10000)
    (h1 : Nat.digitChar (a / 1000) = Nat.digitChar (b / 1000))
    (h2 : Nat.digitChar (a / 100 % 10) = Nat.digitChar (b / 100 % 10))
    (h3 : Nat.digitChar (a / 10 % 10) = Nat.digitChar (b / 10 % 10))
    (h4 : Nat.digitChar (a % 10) = Nat.digitChar (b % 10)) : a = b := by
  have e1 := digitChar_injOn (a / 1000) (by omega) (b / 1000) (by omega) h1
  have e2 := digitChar_injOn (a / 100 % 10) (by omega) (b / 100 % 10) (by omega) h2
  have e3 := digitChar_injOn (a / 10 % 10) (by omega) (b / 10 % 10) (by omega) h3
  have e4 := digitChar_injOn (a % 10) (by omega) (b % 10) (by omega) h4
  omega

theorem strftimeChars_inj {t1 t2 : Timestamp} (h1 : t1.valid) (h2 : t2.valid)
    (h : strftimeChars t1 = strftimeChars t2) : t1 = t2 := by
  obtain ⟨y1, n1, d1, o1, i1, c1⟩ := t1
  obtain ⟨y2, n2, d2, o2, i2, c2⟩ := t2
  simp only [Timestamp.valid] at h1 h2
  obtain ⟨hm1, hm2, hday1, hday2, hy1, hh1, hmin1, hs1⟩ := h1
  obtain ⟨km1, km2, kday1, kday2, ky1, kh1, kmin1, ks1⟩ := h2
  simp [strftimeChars, two, four] at h
  obtain ⟨q1, q2, q3, q4, q5, q6, q7, q8, q9, q10, q11, q12, q13, q14⟩ := h
  have ed : d1 = d2 := two_inj (by omega) (by omega) q1 q2
  have en : n1 = n2 := two_inj (by omega) (by omega) q3 q4
  have ey : y1 = y2 := four_inj (by omega) (by omega) q5 q6 q7 q8
  have eo : o1 = o2 := two_inj (by omega) (by omega) q9 q10
  have ei : i1 = i2 := two_inj (by omega) (by omega) q11 q12
  have ec : c1 = c2 := two_inj (by omega) (by omega) q13 q14
  rw [ed, en, ey, eo, ei, ec]

theorem headq_append_cons (l : List Char) (r1 r2 : List Char) (c : Char) :
    (l ++ c :: r1).head? = (l ++ c :: r2).head? := by
  cases l <;> rfl

theorem osPathJoin_cancel {a b1 b2 : String}
    (hh : b1.data.head? = b2.data.head?)
    (h : osPathJoin a b1 = osPathJoin a b2) : b1.data = b2.data := by
  unfold osPathJoin at h
  by_cases c1 : b1.data.head? = some '/'
  · have c2 : b2.data.head? = some '/' := by rw [← hh]; exact c1
    rw [if_pos c1, if_pos c2] at h
    exact congrArg String.data h
  · have c2 : ¬ b2.data.head? = some '/' := by rw [← hh]; exact c1
    rw [if_neg c1, if_neg c2] at h
    by_cases ha : a = ""
    · rw [if_pos ha, if_pos ha] at h
      exact congrArg String.data h
    · rw [if_neg ha, if_neg ha] at h
      by_cases hl : a.data.getLast? = some '/'
      · rw [if_pos hl, if_pos hl] at h
        have hd := congrArg String.data h
        simp only [data_append] at hd
        exact List.append_cancel_left hd
      · rw [if_neg hl, if_neg hl] at h
        have hd := congrArg String.data h
        simp only [data_append] at hd
        exact List.append_cancel_left hd

theorem takeWhile_ne_dot (l r : List Char) (h : '.' ∉ l) :
    (l ++ '.' :: r).takeWhile (fun c => c != '.') = l := by
  induction l with
  | nil => simp [List.takeWhile_cons]
  | cons c cs ih =>
    simp only [List.mem_cons, not_or] at h
    have hc : ¬ c = '.' := fun he => h.1 he.symm
    simp [List.takeWhile_cons, hc, ih h.2]

theorem lastDotComponent_append (p ext : String) (h : '.' ∉ ext.data) :
    lastDotComponent (p ++ "." ++ ext) = ext := by
  have hrev : '.' ∉ ext.data.reverse := by simpa using h
  have hd : (p ++ "." ++ ext).data.reverse = ext.data.reverse ++ '.' :: p.data.reverse := by
    simp [data_append, data_dot]
  unfold lastDotComponent
  rw [hd, takeWhile_ne_dot ext.data.reverse p.data.reverse hrev, List.reverse_reverse]

theorem lastDotComponent_join (a p ext : String) (h : '.' ∉ ext.data) :
    lastDotComponent (osPathJoin a (p ++ "." ++ ext)) = ext := by
  unfold osPathJoin
  split
  · exact lastDotComponent_append p ext h
  · split
    · exact lastDotComponent_append p ext h
    · split
      · have e : a ++ (p ++ "." ++ ext) = (a ++ p) ++ "." ++ ext := by
          apply string_ext
          simp [data_append]
        rw [e]
        exact lastDotComponent_append (a ++ p) ext h
      · have e : a ++ "/" ++ (p ++ "." ++ ext) = (a ++ "/" ++ p) ++ "." ++ ext := by
          apply string_ext
          simp [data_append]
        rw [e]
        exact lastDotComponent_append (a ++ "/" ++ p) ext h

/-- C7: in the generic case — output directory nonempty and not
slash-terminated, base name not absolute — the generated destination path is
exactly the output directory, a slash, the base name, an underscore, the
two-digit day, dash, two-digit month, dash, four-digit year, underscore,
two-digit hour, dash, two-digit minute, dash, two-digit second, a dot and the
extension, with the timestamp the one fixed at generation time. -/
theorem generate_file_name_pattern (t : Timestamp) (base ext dir : String)
    (hb : base.data.head? ≠ some '/') (hd1 : dir ≠ "") (hd2 : dir.data.getLast? ≠ some '/') :
    LocalDataHandler.generate_file_name t base ext dir =
      dir ++ "/" ++ base ++ "_" ++ pad2 t.day ++ "-" ++ pad2 t.month ++ "-" ++ pad4 t.year
        ++ "_" ++ pad2 t.hour ++ "-" ++ pad2 t.minute ++ "-" ++ pad2 t.second ++ "." ++ ext := by
  have e : (base ++ "_" ++ strftimeDate t ++ "." ++ ext).data
      = base.data ++ '_' :: (strftimeChars t ++ '.' :: ext.data) := by
    simp [data_append, data_underscore, data_dot, strftimeDate, data_mk]
  have hbx : (base ++ "_" ++ strftimeDate t ++ "." ++ ext).data.head? ≠ some '/' := by
    rw [e]
    cases hb2 : base.data with
    | nil => simp
    | cons c cs =>
      rw [hb2] at hb
      simpa using hb
  unfold LocalDataHandler.generate_file_name osPathJoin
  rw [if_neg hbx, if_neg hd1, if_neg hd2]
  apply string_ext
  simp [data_append, strftimeDate, data_mk, strftimeChars, pad2, pad4,
    data_dash, data_underscore, data_dot, data_slash]

theorem generate_file_name_pattern_witness :
    (("report" : String).data.head? ≠ some '/' ∧ ("out" : String) ≠ "" ∧
      ("out" : String).data.getLast? ≠ some '/') ∧
    LocalDataHandler.generate_file_name ts1 "report" "csv" "out" =
      "out" ++ "/" ++ "report" ++ "_" ++ pad2 ts1.day ++ "-" ++ pad2 ts1.month ++ "-"
        ++ pad4 ts1.year ++ "_" ++ pad2 ts1.hour ++ "-" ++ pad2 ts1.minute ++ "-"
        ++ pad2 ts1.second ++ "." ++ "csv" :=
  ⟨⟨by decide, by decide, by decide⟩,
   generate_file_name_pattern ts1 "report" "csv" "out" (by decide) (by decide) (by decide)⟩

/-- C8: two generated destination paths with the same base name, extension
and output directory but different valid generation timestamps are distinct:
generate_file_name is injective in the second-resolution timestamp, so two
writes whose generation times differ produce two distinct files. -/
theorem generate_file_name_injective (t1 t2 : Timestamp) (base ext dir : String)
    (h1 : t1.valid) (h2 : t2.valid) (hne : t1 ≠ t2) :
    LocalDataHandler.generate_file_name t1 base ext dir ≠
      LocalDataHandler.generate_file_name t2 base ext dir := by
  intro heq
  apply hne
  unfold LocalDataHandler.generate_file_name at heq
  have e1 : (base ++ "_" ++ strftimeDate t1 ++ "." ++ ext).data
      = base.data ++ '_' :: (strftimeChars t1 ++ '.' :: ext.data) := by
    simp [data_append, data_underscore, data_dot, strftimeDate, data_mk]
  have e2 : (base ++ "_" ++ strftimeDate t2 ++ "." ++ ext).data
      = base.data ++ '_' :: (strftimeChars t2 ++ '.' :: ext.data) := by
    simp [data_append, data_underscore, data_dot, strftimeDate, data_mk]
  have hh : (base ++ "_" ++ strftimeDate t1 ++ "." ++ ext).data.head?
      = (base ++ "_" ++ strftimeDate t2 ++ "." ++ ext).data.head? := by
    rw [e1, e2]
    exact headq_append_cons base.data _ _ '_'
  have hdata := osPathJoin_cancel hh heq
  rw [e1, e2] at hdata
  have h3 := List.append_cancel_left hdata
  injection h3 with h4 h5
  have h6 := List.append_cancel_right h5
  exact strftimeChars_inj h1 h2 h6

theorem generate_file_name_injective_witness :
    (ts1.valid ∧ ts2.valid ∧ ts1 ≠ ts2) ∧
    LocalDataHandler.generate_file_name ts1 "data" "csv" "out" ≠
      LocalDataHandler.generate_file_name ts2 "data" "csv" "out" :=
  ⟨⟨by decide, by decide, by decide⟩,
   generate_file_name_injective ts1 ts2 "data" "csv" "out" (by decide) (by decide) (by decide)⟩

theorem roundtrip_aux (cs : Codecs) (now : Timestamp) (fs : FS) (df : DataFrame)
    (base dir ext : String) (w : DataFrame → Call String) (r : String → Call DataFrame)
    (hw : LocalDataHandler.writersDict cs ext = some w)
    (hr : LocalDataHandler.readersDict cs ext = some r)
    (hdot : '.' ∉ ext.data)
    (hrt : codecRoundtrips cs ext df)
    (hok : (LocalDataHandler.write cs now fs df base dir ext).2 = Except.ok ()) :
    LocalDataHandler.read cs (LocalDataHandler.write cs now fs df base dir ext).1
      (LocalDataHandler.generate_file_name now base ext dir) none = Except.ok df := by
  have hlast : lastDotComponent (LocalDataHandler.generate_file_name now base ext dir) = ext := by
    unfold LocalDataHandler.generate_file_name
    exact lastDotComponent_join dir (base ++ "_" ++ strftimeDate now) ext hdot
  cases hwc : w df with
  | exn e =>
    simp [LocalDataHandler.write, hw, hwc] at hok
  | ret content =>
    have hread := hrt w r content hw hr hwc
    simp [LocalDataHandler.read, LocalDataHandler.write, hw, hwc, hlast, hr, hread]

theorem wCodecs_json_roundtrips : codecRoundtrips wCodecs "json" sampleDf := by
  intro w r content hw hr hwc
  have hw2 : some wCodecs.toJson = some w := hw
  have hr2 : some wCodecs.readJson = some r := hr
  injection hr2 with hr3
  rw [← hr3]
  rfl

/-- C5: for each supported format, reading back the file just written returns
the original DataFrame whenever that format's codec pair (an external pandas
collaborator, taken as a parameter) inverts on the data: the handler's own
dispatch — directory creation, timestamped path generation, registry lookup
on write, extension re-resolution from the generated path and registry lookup
on read, and the file store itself — preserves the roundtrip. The value
restriction mirrors the claim's exemption of timestamp columns. -/
theorem localHandler_roundtrip (cs : Codecs) (now : Timestamp) (fs : FS) (df : DataFrame)
    (base dir ext : String)
    (hext : ext = "json" ∨ ext = "csv" ∨ ext = "parquet")
    (hvals : textIntFloatOnly df = true)
    (hrt : codecRoundtrips cs ext df)
    (hok : (LocalDataHandler.write cs now fs df base dir ext).2 = Except.ok ()) :
    LocalDataHandler.read cs (LocalDataHandler.write cs now fs df base dir ext).1
      (LocalDataHandler.generate_file_name now base ext dir) none = Except.ok df := by
  rcases hext with he | he | he <;> subst he
  · exact roundtrip_aux cs now fs df base dir "json" cs.toJson cs.readJson rfl rfl
      (by decide) hrt hok
  · exact roundtrip_aux cs now fs df base dir "csv" cs.toCsv cs.readCsv rfl rfl
      (by decide) hrt hok
  · exact roundtrip_aux cs now fs df base dir "parquet" cs.toParquet cs.readParquet rfl rfl
      (by decide) hrt hok

theorem localHandler_roundtrip_witness :
    (("json" : String) = "json" ∨ ("json" : String) = "csv" ∨ ("json" : String) = "parquet") ∧
    textIntFloatOnly sampleDf = true ∧
    codecRoundtrips wCodecs "json" sampleDf ∧
    (LocalDataHandler.write wCodecs ts1 emptyFS sampleDf "data" "out" "json").2 = Except.ok () ∧
    LocalDataHandler.read wCodecs
      (LocalDataHandler.write wCodecs ts1 emptyFS sampleDf "data" "out" "json").1
      (LocalDataHandler.generate_file_name ts1 "data" "json" "out") none = Except.ok sampleDf :=
  ⟨Or.inl rfl, by decide, wCodecs_json_roundtrips, by rfl,
   localHandler_roundtrip wCodecs ts1 emptyFS sampleDf "data" "out" "json" (Or.inl rfl)
     (by decide) wCodecs_json_roundtrips (by rfl)⟩

end Staj
